import Mathlib

/-!
Superclaims backend — claim orchestration and validation workflow

Shallow embedding of the core logic of the `superclaims-backend` repository:
the document model (`models/schemas.py`), the validator
(`agents/validator_agent.py`), the decision policy
(`ClaimOrchestrator._make_decision` in `agents/orchestrator.py`), the
filename classifier (`agents/classifier_agent.py`), the extractor fallback
sentinels and the routing layer's catch-and-skip
(`agents/bill_agent.py`, `agents/orchestrator.py`), and the upload batch
validation (`utils/helpers.py`, `main.py`).

Modelling conventions:
* Python floats are embedded as `Rat` (only ordering against 0 and the fixed
  decision-score literals matter to the logic).
* An external LLM/extraction call that may fail is an explicit
  `Except Unit _` argument; code that may raise returns `Except`.
* File content is represented by its byte length, the only thing the upload
  validator inspects.
-/

namespace Superclaims

/-! Section: Document model (`models/schemas.py`)

`BillDocument`, `DischargeSummaryDocument` and `IDCardDocument` are a closed
variant set discriminated by their `type` literal, so they are embedded as one
inductive. Field order follows the Python classes. -/

inductive Document where
  | bill (hospital_name : String) (total_amount : Rat)
      (date_of_service : String) (patient_name : Option String)
      (bill_items : Option (List String))
  | discharge_summary (patient_name : String) (diagnosis : String)
      (admission_date : String) (discharge_date : String)
      (treating_doctor : Option String) (procedures : Option (List String))
  | id_card (patient_name : String) (policy_number : String)
      (member_id : String) (insurance_provider : Option String)
  deriving DecidableEq, Repr

/-- The `type` discriminant literal of each document class. -/
def Document.type : Document → String
  | .bill .. => "bill"
  | .discharge_summary .. => "discharge_summary"
  | .id_card .. => "id_card"

/-- The `patient_name` attribute: optional on bills (`Optional[str] = None`),
required on discharge summaries and id cards. Every variant has the
attribute, so the Python `hasattr` guard is always true. -/
def Document.patient_name : Document → Option String
  | .bill _ _ _ pn _ => pn
  | .discharge_summary pn _ _ _ _ _ => some pn
  | .id_card pn _ _ _ => some pn

/-- Embedding of `ValidationResult` (`models/schemas.py`). -/
structure ValidationResult where
  missing_documents : List String
  discrepancies : List String
  deriving DecidableEq, Repr

/-- Embedding of `ClaimDecision` (`models/schemas.py`); `confidence_score` is always set
by `_make_decision`, so it is embedded non-optional. -/
structure ClaimDecision where
  status : String
  reason : String
  confidence_score : Rat
  deriving DecidableEq, Repr

/-! Section: String primitives

Python's `str.lower`, `str.strip`, `str.endswith` and substring membership,
embedded as kernel-computable functions over the character list of a
`String` (the library's own `String.toLower` and friends are defined by
well-founded recursion and do not reduce under `decide`). -/

/-- Python `s.lower()`, restricted to the ASCII mapping A–Z to a–z
(`Char.toLower`). This agrees exactly with the Unicode `str.lower` on ASCII
strings, and every comparison the classifier and the upload validator make
against its result involves only ASCII constants (the keyword sets and
".pdf"), where no Unicode lowercase mapping can create or destroy a match.
The validator's name normalization is the one place a non-ASCII name could
diverge; the corresponding theorem scopes itself to ASCII names via
`asciiOnly`. -/
def strLower (s : String) : String := ⟨s.data.map Char.toLower⟩

/-- Code points of the characters Python `str.isspace()` accepts — exactly
the set `str.strip()` removes (from the Unicode character database). -/
def pySpaceCodes : List Nat :=
  [9, 10, 11, 12, 13, 28, 29, 30, 31, 32, 133, 160, 5760, 8192, 8193, 8194,
   8195, 8196, 8197, 8198, 8199, 8200, 8201, 8202, 8232, 8233, 8239, 8287,
   12288]

/-- Python whitespace test, `str.isspace()` on one character. -/
def pyIsSpace (c : Char) : Bool := pySpaceCodes.contains c.toNat

/-- Python `s.strip()`: drop leading and trailing whitespace. -/
def strTrim (s : String) : String :=
  ⟨((s.data.dropWhile pyIsSpace).reverse.dropWhile pyIsSpace).reverse⟩

/-- Predicate scoping a string to ASCII, where `strLower` and `strTrim`
agree exactly with Python `str.lower` and `str.strip`. -/
def asciiOnly (s : String) : Bool := s.data.all (fun c => Nat.blt c.toNat 128)

/-- Python `s.endswith(suffix)`. -/
def strEndsWith (s suffix : String) : Bool := decide (suffix.data <:+ s.data)

/-- Python `s.split(c)` for a one-character separator: the segments between
occurrences of `c`, keeping empty segments. -/
def splitOnChar (c : Char) : List Char → List (List Char)
  | [] => [[]]
  | x :: xs =>
    match splitOnChar c xs with
    | [] => [[x]]
    | y :: ys => if x = c then [] :: y :: ys else (x :: y) :: ys

/-! Section: Date parsing (`datetime.strptime(s, "%Y-%m-%d")`)

CPython matches the string against the compiled pattern of the format:
the year directive requires exactly four Unicode decimal digits (regex
backslash-d, category Nd), the month directive is the ASCII-only
alternation 1[0-2] or 0[1-9] or [1-9], and the day directive is the
alternation 3[01] or [12] followed by any decimal digit, or 0[1-9], or
[1-9], or a space followed by [1-9]. Neither directive can consume the
literal "-" separators, and leftover input raises, so each "-"-delimited
segment must be matched whole. Field values come from `int()` of the match
(decimal digit values, whitespace tolerated), and `datetime(y, m, d)` then
validates year ≥ 1, month 1–12 and the day against the Gregorian month
length. Comparison of the resulting `datetime`s is lexicographic on
(year, month, day). -/

/-- Starts of the 66 runs of ten consecutive Unicode decimal digits
(category Nd); each run carries the digit values 0–9 in code-point order
(from the Unicode character database). -/
def ndBlockStarts : List Nat :=
  [48, 1632, 1776, 1984, 2406, 2534, 2662, 2790, 2918, 3046, 3174, 3302,
   3430, 3558, 3664, 3792, 3872, 4160, 4240, 6112, 6160, 6470, 6608, 6784,
   6800, 6992, 7088, 7232, 7248, 42528, 43216, 43264, 43472, 43504, 43600,
   44016, 65296, 66720, 68912, 69734, 69872, 69942, 70096, 70384, 70736,
   70864, 71248, 71360, 71472, 71904, 72016, 72784, 73040, 73120, 92768,
   92864, 93008, 120782, 120792, 120802, 120812, 120822, 123200, 123632,
   125264, 130032]

/-- The decimal value of a Unicode decimal digit (category Nd), `none` for
any other character: the character set of the regex class backslash-d and
the digits `int()` converts. -/
def decDigitVal? (c : Char) : Option Nat :=
  (ndBlockStarts.find? (fun s =>
    Nat.ble s c.toNat && Nat.ble c.toNat (s + 9))).map (fun s => c.toNat - s)

/-- Python `int()` of an all-digit character sequence (callers fix the
length, so the empty case never reaches the result). -/
def digitsVal? (l : List Char) : Option Nat :=
  l.foldl (fun acc c =>
    match acc, decDigitVal? c with
    | some a, some v => some (a * 10 + v)
    | _, _ => none) (some 0)

/-- Full-segment match of the month directive — the ASCII-only alternation
1[0-2] or 0[1-9] or [1-9] — and its `int()` value. -/
def matchMonth : List Char → Option Nat
  | [c] => if '1' ≤ c ∧ c ≤ '9' then some (c.toNat - 48) else none
  | [c₁, c₂] =>
    if c₁ = '1' ∧ '0' ≤ c₂ ∧ c₂ ≤ '2' then some (10 + (c₂.toNat - 48))
    else if c₁ = '0' ∧ '1' ≤ c₂ ∧ c₂ ≤ '9' then some (c₂.toNat - 48)
    else none
  | _ => none

/-- Full-segment match of the day directive — 3[01], or [12] followed by
any decimal digit, or 0[1-9], or [1-9], or a space followed by [1-9] — and
its `int()` value. -/
def matchDay : List Char → Option Nat
  | [c] => if '1' ≤ c ∧ c ≤ '9' then some (c.toNat - 48) else none
  | [c₁, c₂] =>
    if c₁ = '3' ∧ '0' ≤ c₂ ∧ c₂ ≤ '1' then some (30 + (c₂.toNat - 48))
    else if c₁ = '1' ∨ c₁ = '2' then
      match decDigitVal? c₂ with
      | some v => some ((c₁.toNat - 48) * 10 + v)
      | none => none
    else if c₁ = '0' ∧ '1' ≤ c₂ ∧ c₂ ≤ '9' then some (c₂.toNat - 48)
    else if c₁ = ' ' ∧ '1' ≤ c₂ ∧ c₂ ≤ '9' then some (c₂.toNat - 48)
    else none
  | _ => none

def isLeapYear (y : Nat) : Bool :=
  (y % 4 == 0 && y % 100 != 0) || y % 400 == 0

def daysInMonth (y m : Nat) : Nat :=
  if m == 2 then (if isLeapYear y then 29 else 28)
  else if m == 4 || m == 6 || m == 9 || m == 11 then 30
  else 31

/-- Embedding of `datetime.strptime(s, "%Y-%m-%d")` as a partial function to
(year, month, day); `none` when `strptime` raises `ValueError`. The year is
exactly four decimal digits with value ≥ 1; month and day follow their
directive patterns above (month is 1–12 and day 1–31 by construction), and
the day is then validated against the month length. -/
def parseDate (s : String) : Option (Nat × Nat × Nat) :=
  match splitOnChar '-' s.data with
  | [ys, ms, ds] =>
    match (if ys.length = 4 then digitsVal? ys else none),
        matchMonth ms, matchDay ds with
    | some y, some m, some d =>
      if 1 ≤ y ∧ d ≤ daysInMonth y m then some (y, m, d) else none
    | _, _, _ => none
  | _ => none

/-- Embedding of `datetime` comparison: lexicographic on (year, month, day). -/
def dateLt (a b : Nat × Nat × Nat) : Bool :=
  Nat.blt a.1 b.1 ||
    (a.1 == b.1 && (Nat.blt a.2.1 b.2.1 ||
      (a.2.1 == b.2.1 && Nat.blt a.2.2 b.2.2)))

/-! Section: Validator (`agents/validator_agent.py`, `ValidatorAgent.validate`)

The five checks are embedded one definition each, assembled by `validate` in
the source's order: completeness fills `missing_documents`; name consistency,
date ordering, bill sanity and id-card sanity append to `discrepancies` in
that order. -/

def requiredTypes : List String := ["bill", "discharge_summary", "id_card"]

/-- Completeness check: `required_types - doc_types`, listed. Python iterates the difference as a
set (unspecified order); the embedding lists it in `required_types` order —
all downstream logic uses only emptiness and membership. -/
def missingDocuments (documents : List Document) : List String :=
  requiredTypes.filter (fun t => !(documents.map Document.type).contains t)

/-- The `(type, patient_name.lower().strip())` pairs collected from every
document whose `patient_name` is truthy (present and non-empty). -/
def patientNames (documents : List Document) : List (String × String) :=
  documents.filterMap (fun d =>
    match d.patient_name with
    | some n => if n = "" then none else some (d.type, strTrim (strLower n))
    | none => none)

/-- Name-consistency check: more than one collected name and more than one
distinct normalized name. -/
def nameCheck (documents : List Document) : List String :=
  if (patientNames documents).length > 1 then
    if (((patientNames documents).map Prod.snd).dedup).length > 1 then
      ["Patient name mismatch across documents"]
    else []
  else []

/-- Date-ordering check on the first discharge summary; a parse failure of
either date aborts the check silently (the Python `try`/`except` logs and
moves on). -/
def dateCheck (documents : List Document) : List String :=
  match documents.find? (fun d => d.type == "discharge_summary") with
  | some (.discharge_summary _ _ admission_date discharge_date _ _) =>
    match parseDate admission_date, parseDate discharge_date with
    | some a, some d =>
      if dateLt d a then ["Discharge date is before admission date"] else []
    | _, _ => []
  | _ => []

/-- Bill-sanity check on the first bill: `total_amount <= 0`. (The Python
`try`/`except` around it can never fire: the comparison cannot raise.) -/
def billCheck (documents : List Document) : List String :=
  match documents.find? (fun d => d.type == "bill") with
  | some (.bill _ total_amount _ _ _) =>
    if total_amount ≤ 0 then ["Invalid bill amount (must be positive)"] else []
  | _ => []

/-- ID-card sanity check on the first id card: falsy/`"UNKNOWN"` policy
number, and independently falsy/`"UNKNOWN"` member id. -/
def idCheck (documents : List Document) : List String :=
  match documents.find? (fun d => d.type == "id_card") with
  | some (.id_card _ policy_number member_id _) =>
    (if policy_number = "" ∨ policy_number = "UNKNOWN" then
      ["Missing or invalid policy number"] else []) ++
    (if member_id = "" ∨ member_id = "UNKNOWN" then
      ["Missing or invalid member ID"] else [])
  | _ => []

/-- Embedding of `ValidatorAgent.validate`. -/
def validate (documents : List Document) : ValidationResult :=
  { missing_documents := missingDocuments documents
    discrepancies :=
      nameCheck documents ++ dateCheck documents ++
        billCheck documents ++ idCheck documents }

/-! Section: Decision policy (`ClaimOrchestrator._make_decision`) -/

/-- Embedding of `ClaimOrchestrator._make_decision`: the ordered decision table. -/
def make_decision (documents : List Document) (validation : ValidationResult) :
    ClaimDecision :=
  if validation.missing_documents ≠ [] then
    { status := "rejected"
      reason := "Missing required documents: " ++
        String.intercalate ", " validation.missing_documents
      confidence_score := 1 }
  else if validation.discrepancies ≠ [] then
    { status := "pending_review"
      reason := "Data discrepancies found - manual review required: " ++
        String.intercalate "; " (validation.discrepancies.take 2)
      confidence_score := 0.6 }
  else if requiredTypes.all (fun t => (documents.map Document.type).contains t) then
    { status := "approved"
      reason := "All required documents present and data is consistent"
      confidence_score := 0.95 }
  else
    { status := "rejected"
      reason := "Incomplete documentation"
      confidence_score := 0.8 }

/-! Section: Classifier (`agents/classifier_agent.py`, `ClassifierAgent.classify`)

The LLM fallback is an explicit collaborator argument `llm`; its raw answer
is post-processed exactly as in the source (`strip().lower()`, defaulting to
`"bill"` when the answer is not one of the three tags or the call raises). -/

/-- Case-sensitive substring containment, `needle in haystack` in Python:
the needle's characters occur contiguously in the haystack. -/
def containsSub (haystack needle : String) : Bool :=
  decide (needle.toList <:+: haystack.toList)

def billKeywords : List String := ["bill", "invoice", "payment", "receipt"]
def dischargeKeywords : List String := ["discharge", "summary", "report"]
def idKeywords : List String := ["id", "card", "policy", "insurance"]
def validTypes : List String := ["bill", "discharge_summary", "id_card"]

/-- Embedding of `ClassifierAgent.classify`: keyword sets against the lowercased filename
in fixed priority order, then the LLM fallback. -/
def classify (llm : String → Except Unit String) (filename : String) : String :=
  if billKeywords.any (fun kw => containsSub (strLower filename) kw) then "bill"
  else if dischargeKeywords.any (fun kw => containsSub (strLower filename) kw) then
    "discharge_summary"
  else if idKeywords.any (fun kw => containsSub (strLower filename) kw) then
    "id_card"
  else
    match llm filename with
    | .ok c =>
      if validTypes.contains (strLower (strTrim c)) then strLower (strTrim c)
      else "bill"
    | .error _ => "bill"

/-! Section: Extractors and routing (`agents/*_agent.py`,
`ClaimOrchestrator._route_to_agent`)

Each extractor's single LLM structured-output call (including parsing its
response into the document class) is an `Except Unit Document` argument; the
extractor's `try`/`except` turns a failure into the fixed sentinel record.
The routing layer may in principle face an agent call that raises, so the
agent is an `Except`-valued oracle and routing's own result is wrapped in
`Except Unit` to record whether an exception escapes it. -/

/-- Fallback sentinel of `BillAgent.process`. -/
def billSentinel : Document :=
  .bill "Unknown Hospital" 0 "2024-01-01" none none

/-- Fallback sentinel of `DischargeAgent.process`. -/
def dischargeSentinel : Document :=
  .discharge_summary "Unknown Patient" "Unknown" "2024-01-01" "2024-01-02" none none

/-- Fallback sentinel of `IDCardAgent.process`. -/
def idCardSentinel : Document :=
  .id_card "Unknown" "UNKNOWN" "UNKNOWN" none

/-- Embedding of `BillAgent.process`: the extraction result, or the sentinel when the
LLM call or response parsing raised. -/
def billProcess (llmResult : Except Unit Document) : Document :=
  match llmResult with
  | .ok d => d
  | .error _ => billSentinel

/-- Embedding of `DischargeAgent.process`, same shape. -/
def dischargeProcess (llmResult : Except Unit Document) : Document :=
  match llmResult with
  | .ok d => d
  | .error _ => dischargeSentinel

/-- Embedding of `IDCardAgent.process`, same shape. -/
def idCardProcess (llmResult : Except Unit Document) : Document :=
  match llmResult with
  | .ok d => d
  | .error _ => idCardSentinel

/-- Embedding of `ClaimOrchestrator._route_to_agent`: look up the agent for the type,
call it under `try`/`except` (an exception yields `None`), and return `None`
for unknown types. `process` is the agent-call oracle; the outer
`Except Unit` is `.ok` exactly when no exception escapes the routing step. -/
def route_to_agent (process : String → String → String → Except Unit Document)
    (doc_type text filename : String) : Except Unit (Option Document) :=
  if doc_type = "bill" ∨ doc_type = "discharge_summary" ∨ doc_type = "id_card" then
    match process doc_type text filename with
    | .ok d => .ok (some d)
    | .error _ => .ok none
  else .ok none

/-- Step 3 of `ClaimOrchestrator.process_claim`: route each
(classification, text, filename) triple in order and append the document
when one is produced. An exception escaping a routing step would abort the
whole loop (propagate as `.error`). -/
def routeAll (process : String → String → String → Except Unit Document) :
    List (String × String × String) → Except Unit (List Document)
  | [] => .ok []
  | (doc_type, text, filename) :: rest => do
    let r ← route_to_agent process doc_type text filename
    let ds ← routeAll process rest
    match r with
    | some d => .ok (d :: ds)
    | none => .ok ds

/-! Section: Upload batch validation (`utils/helpers.py::validate_pdf_files`,
wired before orchestration in `main.py::process_claim`) -/

/-- An uploaded file, content represented by its byte length (the validator
reads the content only to measure it). -/
structure UploadFile where
  filename : String
  contentSize : Nat
  deriving DecidableEq, Repr

def MAX_FILE_SIZE : Nat := 25 * 1024 * 1024

/-- Render `len(content) / (1024 * 1024)` with two decimals as Python's
the .2f format of an f-string does: the double value n / 2 to the 20 is exact, and .2f rounds
half-to-even on it. -/
def formatMB (n : Nat) : String :=
  let num := n * 100
  let den := 1048576
  let q := num / den
  let r := num % den
  let h := if 2 * r < den then q
    else if 2 * r > den then q + 1
    else if q % 2 == 0 then q else q + 1
  let frac := h % 100
  toString (h / 100) ++ "." ++
    (if frac < 10 then "0" ++ toString frac else toString frac)

/-- The per-file checks of `validate_pdf_files`, in source order; `some msg`
is the `ValueError` message raised for this file. -/
def checkFile (f : UploadFile) : Option String :=
  if !(strEndsWith (strLower f.filename) ".pdf") then
    some ("❌ '" ++ f.filename ++ "' is not a PDF")
  else if f.filename = "" then
    some "❌ Invalid filename"
  else if f.contentSize > MAX_FILE_SIZE then
    some ("❌ '" ++ f.filename ++
      ("' exceeds 25MB (" ++ formatMB f.contentSize ++ "MB)"))
  else if f.contentSize = 0 then
    some ("❌ '" ++ f.filename ++ "' is empty")
  else none

/-- The per-file loop of `validate_pdf_files`: first failing file raises. -/
def checkFiles : List UploadFile → Except String Unit
  | [] => .ok ()
  | f :: rest =>
    match checkFile f with
    | some e => .error e
    | none => checkFiles rest

/-- Embedding of `validate_pdf_files`: empty batch, then the per-file checks. -/
def validate_pdf_files (files : List UploadFile) : Except String Unit :=
  if files.length < 1 then .error "❌ At least one PDF file required"
  else checkFiles files

/-- A file the spec's inbound contract rejects: wrong extension, empty
content, or content over 25MB. -/
def badFile (f : UploadFile) : Prop :=
  ¬(strEndsWith (strLower f.filename) ".pdf") = true ∨
    f.contentSize = 0 ∨ f.contentSize > MAX_FILE_SIZE

instance (f : UploadFile) : Decidable (badFile f) := by
  unfold badFile; infer_instance

/-- Embedding of `main.py::process_claim`: `validate_pdf_files` gates the call to
`orchestrator.process_claim` (`orch`); a `ValueError` from validation becomes
the 400 response and orchestration is never reached. -/
def processClaimEndpoint {α : Type} (orch : List UploadFile → α)
    (files : List UploadFile) : Except String α :=
  match validate_pdf_files files with
  | .error e => .error e
  | .ok _ => .ok (orch files)

/-! Section: Helper lemmas about the validator's checks -/

theorem mem_nameCheck_eq (documents : List Document) (s : String)
    (h : s ∈ nameCheck documents) :
    s = "Patient name mismatch across documents" := by
  unfold nameCheck at h
  split_ifs at h <;> simp_all

theorem mem_dateCheck_eq (documents : List Document) (s : String)
    (h : s ∈ dateCheck documents) :
    s = "Discharge date is before admission date" := by
  unfold dateCheck at h
  repeat' split at h
  all_goals simp_all

theorem mem_billCheck_eq (documents : List Document) (s : String)
    (h : s ∈ billCheck documents) :
    s = "Invalid bill amount (must be positive)" := by
  unfold billCheck at h
  repeat' split at h
  all_goals simp_all

theorem mem_idCheck_eq (documents : List Document) (s : String)
    (h : s ∈ idCheck documents) :
    s = "Missing or invalid policy number" ∨ s = "Missing or invalid member ID" := by
  unfold idCheck at h
  repeat' split at h
  all_goals simp_all

theorem billCheck_of_find (documents : List Document)
    (hn : String) (amt : Rat) (dos : String) (pn : Option String)
    (bi : Option (List String))
    (hfind : documents.find? (fun d => d.type == "bill") =
      some (.bill hn amt dos pn bi)) :
    billCheck documents =
      if amt ≤ 0 then ["Invalid bill amount (must be positive)"] else [] := by
  unfold billCheck
  rw [hfind]

theorem dateCheck_of_find (documents : List Document)
    (pn diag ad dd : String) (td : Option String) (pr : Option (List String))
    (hfind : documents.find? (fun d => d.type == "discharge_summary") =
      some (.discharge_summary pn diag ad dd td pr)) :
    dateCheck documents =
      match parseDate ad, parseDate dd with
      | some a, some d =>
        if dateLt d a then ["Discharge date is before admission date"] else []
      | _, _ => [] := by
  unfold dateCheck
  rw [hfind]

theorem idCheck_of_find (documents : List Document)
    (pn policy member : String) (ip : Option String)
    (hfind : documents.find? (fun d => d.type == "id_card") =
      some (.id_card pn policy member ip)) :
    idCheck documents =
      (if policy = "" ∨ policy = "UNKNOWN" then
        ["Missing or invalid policy number"] else []) ++
      (if member = "" ∨ member = "UNKNOWN" then
        ["Missing or invalid member ID"] else []) := by
  unfold idCheck
  rw [hfind]

theorem mem_validate_discrepancies (documents : List Document) (s : String) :
    s ∈ (validate documents).discrepancies ↔
      s ∈ nameCheck documents ∨ s ∈ dateCheck documents ∨
        s ∈ billCheck documents ∨ s ∈ idCheck documents := by
  simp [validate, List.mem_append, or_assoc]

/-! Section: Claim theorems -/

/-- C1: `_make_decision` is the ordered decision table with first-match-wins
semantics: non-empty `missing_documents` → rejected listing the missing types
with confidence 1.0; else non-empty `discrepancies` → pending_review quoting
at most the first 2 discrepancies with confidence 0.6; else present types a
superset of the three required types → approved with the fixed reason and
confidence 0.95; else rejected "Incomplete documentation" with
confidence 0.8. -/
theorem decision_table_C1 (documents : List Document)
    (validation : ValidationResult) :
    (validation.missing_documents ≠ [] →
      make_decision documents validation =
        { status := "rejected"
          reason := "Missing required documents: " ++
            String.intercalate ", " validation.missing_documents
          confidence_score := 1 }) ∧
    (validation.missing_documents = [] → validation.discrepancies ≠ [] →
      make_decision documents validation =
        { status := "pending_review"
          reason := "Data discrepancies found - manual review required: " ++
            String.intercalate "; " (validation.discrepancies.take 2)
          confidence_score := 0.6 }) ∧
    (validation.missing_documents = [] → validation.discrepancies = [] →
      (∀ t ∈ requiredTypes, t ∈ documents.map Document.type) →
      make_decision documents validation =
        { status := "approved"
          reason := "All required documents present and data is consistent"
          confidence_score := 0.95 }) ∧
    (validation.missing_documents = [] → validation.discrepancies = [] →
      ¬(∀ t ∈ requiredTypes, t ∈ documents.map Document.type) →
      make_decision documents validation =
        { status := "rejected"
          reason := "Incomplete documentation"
          confidence_score := 0.8 }) := by
  refine ⟨fun h1 => ?_, fun h1 h2 => ?_, fun h1 h2 h3 => ?_, fun h1 h2 h3 => ?_⟩ <;>
    simp_all [make_decision, List.all_eq_true]

/-- C1 witness: the four rules evaluated at concrete inputs. -/
theorem decision_table_C1_witness :
    make_decision [] ⟨["bill"], []⟩ =
      { status := "rejected"
        reason := "Missing required documents: " ++ String.intercalate ", " ["bill"]
        confidence_score := 1 } ∧
    make_decision [] ⟨[], ["a", "b", "c"]⟩ =
      { status := "pending_review"
        reason := "Data discrepancies found - manual review required: " ++
          String.intercalate "; " (["a", "b", "c"].take 2)
        confidence_score := 0.6 } ∧
    make_decision
        [.bill "H" 1 "2024-01-01" none none,
         .discharge_summary "p" "d" "2024-01-01" "2024-01-02" none none,
         .id_card "p" "POL" "MEM" none] ⟨[], []⟩ =
      { status := "approved"
        reason := "All required documents present and data is consistent"
        confidence_score := 0.95 } ∧
    make_decision [] ⟨[], []⟩ =
      { status := "rejected"
        reason := "Incomplete documentation"
        confidence_score := 0.8 } :=
  ⟨(decision_table_C1 [] ⟨["bill"], []⟩).1 (by decide),
   (decision_table_C1 [] ⟨[], ["a", "b", "c"]⟩).2.1 rfl (by decide),
   (decision_table_C1 _ ⟨[], []⟩).2.2.1 rfl rfl (by decide),
   (decision_table_C1 [] ⟨[], []⟩).2.2.2 rfl rfl (by decide)⟩

/-- C2: the completeness check computes exactly the required types minus the
types present, and a document set missing exactly one required type yields
`missing_documents = [that type]` and a rejected decision with
confidence 1.0. -/
theorem completeness_C2 (documents : List Document) :
    (∀ t, t ∈ (validate documents).missing_documents ↔
      t ∈ requiredTypes ∧ t ∉ documents.map Document.type) ∧
    (∀ t ∈ requiredTypes, t ∉ documents.map Document.type →
      (∀ u ∈ requiredTypes, u ≠ t → u ∈ documents.map Document.type) →
      (validate documents).missing_documents = [t] ∧
      (make_decision documents (validate documents)).status = "rejected" ∧
      (make_decision documents (validate documents)).confidence_score = 1) := by
  refine ⟨fun t => ?_, fun t ht habs hoth => ?_⟩
  · simp [validate, missingDocuments, List.mem_filter, List.elem_iff]
  · have hlist : (validate documents).missing_documents = [t] := by
      have ht' : t = "bill" ∨ t = "discharge_summary" ∨ t = "id_card" := by
        simpa [requiredTypes] using ht
      have habs' : ¬ ∃ a ∈ documents, a.type = t := by
        simpa [List.mem_map] using habs
      rcases ht' with rfl | rfl | rfl
      · have h2 : "discharge_summary" ∈ documents.map Document.type :=
          hoth _ (by simp [requiredTypes]) (by decide)
        have h3 : "id_card" ∈ documents.map Document.type :=
          hoth _ (by simp [requiredTypes]) (by decide)
        simp [validate, missingDocuments, requiredTypes, List.filter,
          habs', List.elem_iff, h2, h3]
      · have h2 : "bill" ∈ documents.map Document.type :=
          hoth _ (by simp [requiredTypes]) (by decide)
        have h3 : "id_card" ∈ documents.map Document.type :=
          hoth _ (by simp [requiredTypes]) (by decide)
        simp [validate, missingDocuments, requiredTypes, List.filter,
          habs', List.elem_iff, h2, h3]
      · have h2 : "bill" ∈ documents.map Document.type :=
          hoth _ (by simp [requiredTypes]) (by decide)
        have h3 : "discharge_summary" ∈ documents.map Document.type :=
          hoth _ (by simp [requiredTypes]) (by decide)
        simp [validate, missingDocuments, requiredTypes, List.filter,
          habs', List.elem_iff, h2, h3]
    refine ⟨hlist, ?_, ?_⟩ <;> simp [make_decision, hlist]

/-- C2 witness: a batch with a bill and an id card but no discharge summary
is missing exactly `discharge_summary` and is rejected with confidence 1. -/
theorem completeness_C2_witness :
    (validate [Document.bill "H" 150 "2024-01-01" none none,
      Document.id_card "p" "POL" "MEM" none]).missing_documents =
        ["discharge_summary"] ∧
    (make_decision [Document.bill "H" 150 "2024-01-01" none none,
        Document.id_card "p" "POL" "MEM" none]
      (validate [Document.bill "H" 150 "2024-01-01" none none,
        Document.id_card "p" "POL" "MEM" none])).status = "rejected" ∧
    (make_decision [Document.bill "H" 150 "2024-01-01" none none,
        Document.id_card "p" "POL" "MEM" none]
      (validate [Document.bill "H" 150 "2024-01-01" none none,
        Document.id_card "p" "POL" "MEM" none])).confidence_score = 1 :=
  (completeness_C2 _).2 "discharge_summary" (by decide) (by decide)
    (fun u hu hne => by
      revert hu hne
      revert u
      decide)

/-- C3: with the validation result produced by the validator on the same
document list, the fallback rule 4 of the decision table is unreachable:
`_make_decision` never returns the
(rejected, "Incomplete documentation", 0.8) decision, because empty
`missing_documents` forces the present types to cover the required set. -/
theorem fallback_unreachable_C3 (documents : List Document) :
    make_decision documents (validate documents) ≠
      { status := "rejected"
        reason := "Incomplete documentation"
        confidence_score := 0.8 } := by
  unfold make_decision
  split_ifs with h1 h2 h3
  · simp only [ne_eq, ClaimDecision.mk.injEq, not_and]
    intro _ _
    norm_num
  · simp
  · simp
  · exfalso
    apply h3
    have h0 : missingDocuments documents = [] := not_ne_iff.mp h1
    rw [List.all_eq_true]
    intro t ht
    by_contra hc
    have hnm : t ∉ documents.map Document.type := by
      simpa [List.elem_iff] using hc
    have hmem : t ∈ missingDocuments documents := by
      rw [missingDocuments, List.mem_filter]
      exact ⟨ht, by simpa [List.mem_map] using hnm⟩
    rw [h0] at hmem
    exact absurd hmem (List.not_mem_nil t)

/-- C3 witness: even on the empty document batch — where all three required
types are missing — the fallback decision is not produced (rule 1 fires
instead). -/
theorem fallback_unreachable_C3_witness :
    make_decision [] (validate []) ≠
      { status := "rejected"
        reason := "Incomplete documentation"
        confidence_score := 0.8 } :=
  fallback_unreachable_C3 []

/-- C4: the classifier checks bill-, discharge- and id-keywords against the
lowercased filename in that priority order, returning the first matching tag,
and any filename matching a keyword is classified without consulting the LLM
fallback (the result does not depend on the `llm` collaborator); in
particular any filename containing a bill keyword classifies as "bill". -/
theorem classifier_priority_C4 (llm llm' : String → Except Unit String)
    (filename : String) :
    (billKeywords.any (fun kw => containsSub (strLower filename) kw) = true →
      classify llm filename = "bill") ∧
    (billKeywords.any (fun kw => containsSub (strLower filename) kw) = false →
      dischargeKeywords.any (fun kw => containsSub (strLower filename) kw) = true →
      classify llm filename = "discharge_summary") ∧
    (billKeywords.any (fun kw => containsSub (strLower filename) kw) = false →
      dischargeKeywords.any (fun kw => containsSub (strLower filename) kw) = false →
      idKeywords.any (fun kw => containsSub (strLower filename) kw) = true →
      classify llm filename = "id_card") ∧
    ((billKeywords.any (fun kw => containsSub (strLower filename) kw) ||
      dischargeKeywords.any (fun kw => containsSub (strLower filename) kw) ||
      idKeywords.any (fun kw => containsSub (strLower filename) kw)) = true →
      classify llm filename = classify llm' filename) := by
  refine ⟨fun h1 => ?_, fun h1 h2 => ?_, fun h1 h2 h3 => ?_, fun h => ?_⟩
  · simp [classify, h1]
  · simp [classify, h1, h2]
  · simp [classify, h1, h2, h3]
  · rcases Bool.or_eq_true_iff.mp h with h' | h3
    · rcases Bool.or_eq_true_iff.mp h' with h1 | h2
      · simp [classify, h1]
      · rcases hb : billKeywords.any (fun kw => containsSub (strLower filename) kw) <;>
          simp [classify, hb, h2]
    · rcases hb : billKeywords.any (fun kw => containsSub (strLower filename) kw) <;>
        rcases hd : dischargeKeywords.any (fun kw => containsSub (strLower filename) kw) <;>
        simp [classify, hb, hd, h3]

/-- C4 witness: "HOSPITAL_BILL_2024.PDF" contains a bill keyword in mixed
case and classifies as "bill" under two different LLM collaborators. -/
theorem classifier_priority_C4_witness :
    classify (fun _ => .error ()) "HOSPITAL_BILL_2024.PDF" = "bill" ∧
    classify (fun _ => .ok "id_card") "HOSPITAL_BILL_2024.PDF" =
      classify (fun _ => .error ()) "HOSPITAL_BILL_2024.PDF" :=
  ⟨(classifier_priority_C4 (fun _ => .error ()) (fun _ => .ok "id_card")
      "HOSPITAL_BILL_2024.PDF").1 (by decide),
   (classifier_priority_C4 (fun _ => .ok "id_card") (fun _ => .error ())
      "HOSPITAL_BILL_2024.PDF").2.2.2 (by decide)⟩

/-- C5: a structured-extraction failure is never fatal: the extractor's
`try`/`except` substitutes the fixed sentinel record (for Bill,
hospital_name "Unknown Hospital", total_amount 0.0, date_of_service
"2024-01-01"); the routing layer always returns without an exception; and an
agent call that raises contributes no document to the routed list. -/
theorem extraction_failure_absorbed_C5 :
    billProcess (.error ()) =
      Document.bill "Unknown Hospital" 0 "2024-01-01" none none ∧
    dischargeProcess (.error ()) =
      Document.discharge_summary "Unknown Patient" "Unknown"
        "2024-01-01" "2024-01-02" none none ∧
    idCardProcess (.error ()) =
      Document.id_card "Unknown" "UNKNOWN" "UNKNOWN" none ∧
    (∀ (process : String → String → String → Except Unit Document)
        (doc_type text filename : String),
      ∃ r, route_to_agent process doc_type text filename = .ok r) ∧
    (∀ (process : String → String → String → Except Unit Document)
        (doc_type text filename : String)
        (rest : List (String × String × String)),
      process doc_type text filename = .error () →
      routeAll process ((doc_type, text, filename) :: rest) =
        routeAll process rest) := by
  refine ⟨rfl, rfl, rfl, fun process doc_type text filename => ?_,
    fun process doc_type text filename rest herr => ?_⟩
  · unfold route_to_agent
    split_ifs
    · cases process doc_type text filename <;> exact ⟨_, rfl⟩
    · exact ⟨_, rfl⟩
  · have hroute : route_to_agent process doc_type text filename = .ok none := by
      unfold route_to_agent
      split_ifs <;> simp [herr]
    cases hrest : routeAll process rest <;>
      simp only [routeAll, hroute, hrest] <;> rfl

/-- C5 witness: with an always-failing agent oracle, a "bill" entry is
skipped and the routed document list equals that of the remaining entries. -/
theorem extraction_failure_absorbed_C5_witness :
    routeAll (fun _ _ _ => .error ()) [("bill", "t", "f.pdf")] =
      routeAll (fun _ _ _ => .error ()) [] :=
  extraction_failure_absorbed_C5.2.2.2.2 (fun _ _ _ => .error ())
    "bill" "t" "f.pdf" [] rfl

/-- C6: when the first discharge summary's two dates both parse as
YYYY-MM-DD, the date-ordering discrepancy is emitted iff the discharge date
is strictly before the admission date; when either date fails to parse the
check emits nothing (and raises no error). -/
theorem date_order_discrepancy_C6 (documents : List Document)
    (pn diag ad dd : String) (td : Option String) (pr : Option (List String))
    (hfind : documents.find? (fun d => d.type == "discharge_summary") =
      some (.discharge_summary pn diag ad dd td pr)) :
    (∀ a d, parseDate ad = some a → parseDate dd = some d →
      ("Discharge date is before admission date" ∈
        (validate documents).discrepancies ↔ dateLt d a = true)) ∧
    (parseDate ad = none ∨ parseDate dd = none →
      "Discharge date is before admission date" ∉
        (validate documents).discrepancies) := by
  have hdc := dateCheck_of_find _ _ _ _ _ _ _ hfind
  constructor
  · intro a d ha hd
    have hdc' : dateCheck documents =
        if dateLt d a = true then
          ["Discharge date is before admission date"] else [] := by
      rw [hdc, ha, hd]
    rw [mem_validate_discrepancies]
    constructor
    · rintro (h | h | h | h)
      · exact absurd (mem_nameCheck_eq _ _ h) (by decide)
      · rw [hdc'] at h
        split_ifs at h with hlt
        · exact hlt
        · simp at h
      · exact absurd (mem_billCheck_eq _ _ h) (by decide)
      · rcases mem_idCheck_eq _ _ h with h' | h' <;> exact absurd h' (by decide)
    · intro hlt
      refine Or.inr (Or.inl ?_)
      rw [hdc']
      simp [hlt]
  · intro hnone
    have hdc0 : dateCheck documents = [] := by
      rw [hdc]
      rcases hnone with hna | hnd
      · rw [hna]
      · rw [hnd]
        all_goals cases parseDate ad <;> rfl
    intro h
    rw [mem_validate_discrepancies] at h
    rcases h with h | h | h | h
    · exact absurd (mem_nameCheck_eq _ _ h) (by decide)
    · rw [hdc0] at h
      exact absurd h (List.not_mem_nil _)
    · exact absurd (mem_billCheck_eq _ _ h) (by decide)
    · rcases mem_idCheck_eq _ _ h with h' | h' <;> exact absurd h' (by decide)

/-- C6 witness: the spec's example — discharge "2024-01-01" before admission
"2024-01-05" yields the discrepancy; discharge "2024-01-10" does not. -/
theorem date_order_discrepancy_C6_witness :
    "Discharge date is before admission date" ∈
      (validate [Document.discharge_summary "John" "flu"
        "2024-01-05" "2024-01-01" none none]).discrepancies ∧
    "Discharge date is before admission date" ∉
      (validate [Document.discharge_summary "John" "flu"
        "2024-01-05" "2024-01-10" none none]).discrepancies ∧
    "Discharge date is before admission date" ∈
      (validate [Document.discharge_summary "John" "flu"
        "2024-01- 9" "2024-01-01" none none]).discrepancies ∧
    "Discharge date is before admission date" ∉
      (validate [Document.discharge_summary "John" "flu"
        "999-01-05" "999-01-01" none none]).discrepancies :=
  ⟨((date_order_discrepancy_C6
      [Document.discharge_summary "John" "flu" "2024-01-05" "2024-01-01"
        none none]
      "John" "flu" "2024-01-05" "2024-01-01" none none (by decide)).1
      (2024, 1, 5) (2024, 1, 1) (by decide) (by decide)).mpr (by decide),
   fun h => absurd (((date_order_discrepancy_C6
      [Document.discharge_summary "John" "flu" "2024-01-05" "2024-01-10"
        none none]
      "John" "flu" "2024-01-05" "2024-01-10" none none (by decide)).1
      (2024, 1, 5) (2024, 1, 10) (by decide) (by decide)).mp h) (by decide),
   ((date_order_discrepancy_C6
      [Document.discharge_summary "John" "flu" "2024-01- 9" "2024-01-01"
        none none]
      "John" "flu" "2024-01- 9" "2024-01-01" none none (by decide)).1
      (2024, 1, 9) (2024, 1, 1) (by decide) (by decide)).mpr (by decide),
   (date_order_discrepancy_C6
      [Document.discharge_summary "John" "flu" "999-01-05" "999-01-01"
        none none]
      "John" "flu" "999-01-05" "999-01-01" none none (by decide)).2
      (Or.inl (by decide))⟩

/-- C7: when a bill document exists, the bill-amount discrepancy is present
iff the first bill's `total_amount` is ≤ 0. -/
theorem bill_amount_discrepancy_C7 (documents : List Document)
    (hn : String) (amt : Rat) (dos : String) (pn : Option String)
    (bi : Option (List String))
    (hfind : documents.find? (fun d => d.type == "bill") =
      some (.bill hn amt dos pn bi)) :
    ("Invalid bill amount (must be positive)" ∈
      (validate documents).discrepancies ↔ amt ≤ 0) := by
  rw [mem_validate_discrepancies]
  constructor
  · rintro (h | h | h | h)
    · exact absurd (mem_nameCheck_eq _ _ h) (by decide)
    · exact absurd (mem_dateCheck_eq _ _ h) (by decide)
    · rw [billCheck_of_find _ _ _ _ _ _ hfind] at h
      split_ifs at h with hle
      · exact hle
      · simp at h
    · rcases mem_idCheck_eq _ _ h with h' | h' <;> exact absurd h' (by decide)
  · intro hle
    refine Or.inr (Or.inr (Or.inl ?_))
    rw [billCheck_of_find _ _ _ _ _ _ hfind]
    simp [hle]

/-- C7 witness: a zero-amount bill triggers the discrepancy and a 150.0 bill
does not. -/
theorem bill_amount_discrepancy_C7_witness :
    "Invalid bill amount (must be positive)" ∈
      (validate [Document.bill "H" 0 "2024-01-01" none none]).discrepancies ∧
    "Invalid bill amount (must be positive)" ∉
      (validate [Document.bill "H" 150 "2024-01-01" none none]).discrepancies :=
  ⟨(bill_amount_discrepancy_C7 [Document.bill "H" 0 "2024-01-01" none none]
      "H" 0 "2024-01-01" none none (by decide)).mpr (by norm_num),
   fun h => absurd ((bill_amount_discrepancy_C7
      [Document.bill "H" 150 "2024-01-01" none none]
      "H" 150 "2024-01-01" none none (by decide)).mp h) (by norm_num)⟩

/-- C8: when an id card exists, the policy-number discrepancy is present iff
the first id card's `policy_number` is empty or "UNKNOWN", and independently
the member-ID discrepancy is present iff its `member_id` is empty or
"UNKNOWN". -/
theorem id_card_discrepancies_C8 (documents : List Document)
    (pn policy member : String) (ip : Option String)
    (hfind : documents.find? (fun d => d.type == "id_card") =
      some (.id_card pn policy member ip)) :
    ("Missing or invalid policy number" ∈ (validate documents).discrepancies ↔
      (policy = "" ∨ policy = "UNKNOWN")) ∧
    ("Missing or invalid member ID" ∈ (validate documents).discrepancies ↔
      (member = "" ∨ member = "UNKNOWN")) := by
  have hic := idCheck_of_find _ _ _ _ _ hfind
  have hpol : "Missing or invalid policy number" ∈ idCheck documents ↔
      (policy = "" ∨ policy = "UNKNOWN") := by
    rw [hic]
    split_ifs with h1 h2 <;> simp_all
  have hmem : "Missing or invalid member ID" ∈ idCheck documents ↔
      (member = "" ∨ member = "UNKNOWN") := by
    rw [hic]
    split_ifs with h1 h2 <;> simp_all
  constructor
  · rw [mem_validate_discrepancies]
    constructor
    · rintro (h | h | h | h)
      · exact absurd (mem_nameCheck_eq _ _ h) (by decide)
      · exact absurd (mem_dateCheck_eq _ _ h) (by decide)
      · exact absurd (mem_billCheck_eq _ _ h) (by decide)
      · exact hpol.mp h
    · intro h
      exact Or.inr (Or.inr (Or.inr (hpol.mpr h)))
  · rw [mem_validate_discrepancies]
    constructor
    · rintro (h | h | h | h)
      · exact absurd (mem_nameCheck_eq _ _ h) (by decide)
      · exact absurd (mem_dateCheck_eq _ _ h) (by decide)
      · exact absurd (mem_billCheck_eq _ _ h) (by decide)
      · exact hmem.mp h
    · intro h
      exact Or.inr (Or.inr (Or.inr (hmem.mpr h)))

/-- C8 witness: an "UNKNOWN" policy number triggers the policy discrepancy
while a valid member id does not trigger the member discrepancy; with both
fields valid, both discrepancies are absent. -/
theorem id_card_discrepancies_C8_witness :
    "Missing or invalid policy number" ∈
      (validate [Document.id_card "p" "UNKNOWN" "MEM456" none]).discrepancies ∧
    "Missing or invalid member ID" ∉
      (validate [Document.id_card "p" "UNKNOWN" "MEM456" none]).discrepancies ∧
    "Missing or invalid policy number" ∉
      (validate [Document.id_card "p" "POL123" "MEM456" none]).discrepancies :=
  ⟨(id_card_discrepancies_C8 [Document.id_card "p" "UNKNOWN" "MEM456" none]
      "p" "UNKNOWN" "MEM456" none (by decide)).1.mpr (Or.inr rfl),
   fun h => absurd ((id_card_discrepancies_C8
      [Document.id_card "p" "UNKNOWN" "MEM456" none]
      "p" "UNKNOWN" "MEM456" none (by decide)).2.mp h) (by decide),
   fun h => absurd ((id_card_discrepancies_C8
      [Document.id_card "p" "POL123" "MEM456" none]
      "p" "POL123" "MEM456" none (by decide)).1.mp h) (by decide)⟩

/-! Section: Helper lemmas for the upload batch validation -/

theorem containsSub_sandwich (a b c : String) : containsSub (a ++ b ++ c) b = true :=
  decide_eq_true (List.infix_append a.data b.data c.data)

theorem checkFile_some_spec (f : UploadFile) (msg : String)
    (h : checkFile f = some msg) :
    badFile f ∧ containsSub msg f.filename = true := by
  unfold checkFile at h
  split_ifs at h with h1 h2 h3 h4
  · cases h
    exact ⟨Or.inl (by simpa using h1), containsSub_sandwich _ _ _⟩
  · exfalso
    rw [h2] at h1
    exact h1 (by decide)
  · cases h
    exact ⟨Or.inr (Or.inr h3), containsSub_sandwich _ _ _⟩
  · cases h
    exact ⟨Or.inr (Or.inl h4), containsSub_sandwich _ _ _⟩

theorem checkFile_some_of_bad (f : UploadFile) (hbad : badFile f) :
    ∃ msg, checkFile f = some msg := by
  unfold checkFile
  split_ifs with h1 h2 h3 h4
  · exact ⟨_, rfl⟩
  · exact ⟨_, rfl⟩
  · exact ⟨_, rfl⟩
  · exact ⟨_, rfl⟩
  · exfalso
    rcases hbad with h | h | h <;> simp_all

theorem checkFiles_error_of_bad (files : List UploadFile)
    (hbad : ∃ f ∈ files, badFile f) :
    ∃ msg, checkFiles files = .error msg ∧
      ∃ g ∈ files, badFile g ∧ containsSub msg g.filename = true := by
  induction files with
  | nil => simp at hbad
  | cons f rest ih =>
    cases hcf : checkFile f with
    | some msg =>
      have hspec := checkFile_some_spec f msg hcf
      exact ⟨msg, by simp [checkFiles, hcf], f, by simp, hspec.1, hspec.2⟩
    | none =>
      have hfgood : ¬ badFile f := by
        intro hb
        rcases checkFile_some_of_bad f hb with ⟨m, hm⟩
        rw [hm] at hcf
        cases hcf
      rcases hbad with ⟨g, hg, hgbad⟩
      rcases List.mem_cons.mp hg with rfl | hgrest
      · exact absurd hgbad hfgood
      · rcases ih ⟨g, hgrest, hgbad⟩ with ⟨msg, hmsg, g', hg', hb', hc'⟩
        exact ⟨msg, by simp [checkFiles, hcf, hmsg],
          g', List.mem_cons_of_mem _ hg', hb', hc'⟩

theorem validate_pdf_files_error_of_bad (files : List UploadFile)
    (hbad : files = [] ∨ ∃ f ∈ files, badFile f) :
    ∃ msg, validate_pdf_files files = .error msg := by
  rcases hbad with rfl | hbad
  · exact ⟨_, rfl⟩
  · rcases hbad with ⟨f, hf, hb⟩
    have hne : files ≠ [] := by
      rintro rfl
      exact absurd hf (List.not_mem_nil f)
    rcases checkFiles_error_of_bad files ⟨f, hf, hb⟩ with ⟨msg, hmsg, _⟩
    refine ⟨msg, ?_⟩
    unfold validate_pdf_files
    rw [if_neg (by simpa [Nat.lt_one_iff, List.length_eq_zero] using hne)]
    exact hmsg

/-- C9: an invalid upload batch — a file with a non-`.pdf` extension
(case-insensitive), an empty file, an oversized file, or zero files — is
rejected by `validate_pdf_files` before orchestration: the raised message
names the offending file (the zero-file batch gets its own fixed message),
and `process_claim` of the orchestrator is never invoked (the endpoint's
outcome is an error, independent of the orchestrator). -/
theorem upload_validation_C9 :
    validate_pdf_files [] = .error "❌ At least one PDF file required" ∧
    (∀ files : List UploadFile, (∃ f ∈ files, badFile f) →
      ∃ msg, validate_pdf_files files = .error msg ∧
        ∃ g ∈ files, badFile g ∧ containsSub msg g.filename = true) ∧
    (∀ (α : Type) (orch orch' : List UploadFile → α)
        (files : List UploadFile),
      (files = [] ∨ ∃ f ∈ files, badFile f) →
      (∃ msg, processClaimEndpoint orch files = .error msg) ∧
      processClaimEndpoint orch files = processClaimEndpoint orch' files) := by
  refine ⟨rfl, fun files hbad => ?_, fun α orch orch' files hbad => ?_⟩
  · rcases hbad with ⟨f, hf, hb⟩
    have hne : files ≠ [] := by
      rintro rfl
      exact absurd hf (List.not_mem_nil f)
    rcases checkFiles_error_of_bad files ⟨f, hf, hb⟩ with
      ⟨msg, hmsg, g, hg, hb', hc'⟩
    refine ⟨msg, ?_, g, hg, hb', hc'⟩
    unfold validate_pdf_files
    rw [if_neg (by simpa [Nat.lt_one_iff, List.length_eq_zero] using hne)]
    exact hmsg
  · rcases validate_pdf_files_error_of_bad files hbad with ⟨msg, hmsg⟩
    exact ⟨⟨msg, by simp [processClaimEndpoint, hmsg]⟩,
      by simp [processClaimEndpoint, hmsg]⟩

/-- C9 witness: a 0-byte file named "bill.pdf" is rejected with a message
naming that file, and the endpoint result does not depend on the
orchestrator. -/
theorem upload_validation_C9_witness :
    (∃ msg, validate_pdf_files [⟨"bill.pdf", 0⟩] = .error msg ∧
      ∃ g ∈ [(⟨"bill.pdf", 0⟩ : UploadFile)], badFile g ∧
        containsSub msg g.filename = true) ∧
    processClaimEndpoint (fun _ => ([] : List Document)) [⟨"bill.pdf", 0⟩] =
      processClaimEndpoint (fun _ =>
        [Document.bill "X" 1 "2024-01-01" none none]) [⟨"bill.pdf", 0⟩] :=
  ⟨upload_validation_C9.2.1 [⟨"bill.pdf", 0⟩]
      ⟨⟨"bill.pdf", 0⟩, by decide, Or.inr (Or.inl rfl)⟩,
   (upload_validation_C9.2.2 (List Document)
      (fun _ => []) (fun _ => [Document.bill "X" 1 "2024-01-01" none none])
      [⟨"bill.pdf", 0⟩]
      (Or.inr ⟨⟨"bill.pdf", 0⟩, by decide, Or.inr (Or.inl rfl)⟩)).2⟩

/-- C10: the date, bill-amount and id-card checks inspect only the first
document of the relevant type in list order — a clean first bill suppresses
the bill discrepancy no matter what later bills contain, and likewise for
the first discharge summary and first id card — while the name-consistency
check ranges over every document (`patientNames` collects from the whole
list). The name-check biconditional is scoped to ASCII patient names, on
which the embedded normalization (`strLower` then `strTrim`) agrees exactly
with the program's `patient_name.lower().strip()`. -/
theorem first_document_only_C10 (documents : List Document) :
    (∀ hn amt dos pn bi,
      documents.find? (fun d => d.type == "bill") =
        some (.bill hn amt dos pn bi) → 0 < amt →
      "Invalid bill amount (must be positive)" ∉
        (validate documents).discrepancies) ∧
    (∀ pn diag ad dd td pr,
      documents.find? (fun d => d.type == "discharge_summary") =
        some (.discharge_summary pn diag ad dd td pr) →
      (∀ a d, parseDate ad = some a → parseDate dd = some d →
        dateLt d a = false) →
      "Discharge date is before admission date" ∉
        (validate documents).discrepancies) ∧
    (∀ pn policy member ip,
      documents.find? (fun d => d.type == "id_card") =
        some (.id_card pn policy member ip) →
      policy ≠ "" → policy ≠ "UNKNOWN" → member ≠ "" → member ≠ "UNKNOWN" →
      "Missing or invalid policy number" ∉
        (validate documents).discrepancies ∧
      "Missing or invalid member ID" ∉ (validate documents).discrepancies) ∧
    ((∀ d ∈ documents, d.patient_name.all asciiOnly = true) →
      ("Patient name mismatch across documents" ∈
          (validate documents).discrepancies ↔
        (patientNames documents).length > 1 ∧
          (((patientNames documents).map Prod.snd).dedup).length > 1)) := by
  refine ⟨fun hn amt dos pn bi hfind hpos h => ?_,
    fun pn diag ad dd td pr hfind hno h => ?_,
    fun pn policy member ip hfind hp1 hp2 hm1 hm2 => ?_, fun _ => ?_⟩
  · rw [mem_validate_discrepancies] at h
    rcases h with h | h | h | h
    · exact absurd (mem_nameCheck_eq _ _ h) (by decide)
    · exact absurd (mem_dateCheck_eq _ _ h) (by decide)
    · rw [billCheck_of_find _ _ _ _ _ _ hfind] at h
      split_ifs at h with hle
      · exact absurd hpos (by simpa using hle)
      · simp at h
    · rcases mem_idCheck_eq _ _ h with h' | h' <;> exact absurd h' (by decide)
  · rw [mem_validate_discrepancies] at h
    rcases h with h | h | h | h
    · exact absurd (mem_nameCheck_eq _ _ h) (by decide)
    · rw [dateCheck_of_find _ _ _ _ _ _ _ hfind] at h
      split at h
      · next a d ha hd =>
        rw [hno a d ha hd] at h
        simp at h
      · simp at h
    · exact absurd (mem_billCheck_eq _ _ h) (by decide)
    · rcases mem_idCheck_eq _ _ h with h' | h' <;> exact absurd h' (by decide)
  · have hic : idCheck documents = [] := by
      rw [idCheck_of_find _ _ _ _ _ hfind,
        if_neg (by simp [hp1, hp2]), if_neg (by simp [hm1, hm2])]
      rfl
    constructor <;> intro h <;> rw [mem_validate_discrepancies] at h <;>
      rcases h with h | h | h | h
    · exact absurd (mem_nameCheck_eq _ _ h) (by decide)
    · exact absurd (mem_dateCheck_eq _ _ h) (by decide)
    · exact absurd (mem_billCheck_eq _ _ h) (by decide)
    · rw [hic] at h
      exact absurd h (List.not_mem_nil _)
    · exact absurd (mem_nameCheck_eq _ _ h) (by decide)
    · exact absurd (mem_dateCheck_eq _ _ h) (by decide)
    · exact absurd (mem_billCheck_eq _ _ h) (by decide)
    · rw [hic] at h
      exact absurd h (List.not_mem_nil _)
  · constructor
    · intro h
      rw [mem_validate_discrepancies] at h
      rcases h with h | h | h | h
      · unfold nameCheck at h
        split_ifs at h with hl hd
        · exact ⟨hl, hd⟩
        · simp at h
        · simp at h
      · exact absurd (mem_dateCheck_eq _ _ h) (by decide)
      · exact absurd (mem_billCheck_eq _ _ h) (by decide)
      · rcases mem_idCheck_eq _ _ h with h' | h' <;> exact absurd h' (by decide)
    · rintro ⟨h1, h2⟩
      rw [mem_validate_discrepancies]
      refine Or.inl ?_
      unfold nameCheck
      rw [if_pos h1, if_pos h2]
      simp

/-- C10 witness: a second bill with a zero amount after a clean first bill
produces no discrepancy; likewise for a second out-of-order discharge
summary and a second invalid id card; differing names on two documents do
trigger the name mismatch. -/
theorem first_document_only_C10_witness :
    "Invalid bill amount (must be positive)" ∉
      (validate [Document.bill "A" 100 "2024-01-01" none none,
        Document.bill "B" 0 "2024-01-01" none none]).discrepancies ∧
    "Discharge date is before admission date" ∉
      (validate [Document.discharge_summary "p" "d" "2024-01-01" "2024-01-05"
          none none,
        Document.discharge_summary "p" "d" "2024-01-05" "2024-01-01"
          none none]).discrepancies ∧
    "Missing or invalid policy number" ∉
      (validate [Document.id_card "p" "POL1" "MEM1" none,
        Document.id_card "p" "UNKNOWN" "UNKNOWN" none]).discrepancies ∧
    "Patient name mismatch across documents" ∈
      (validate [Document.discharge_summary "Alice" "d" "2024-01-01"
          "2024-01-02" none none,
        Document.id_card "Bob" "POL1" "MEM1" none]).discrepancies :=
  ⟨(first_document_only_C10 [Document.bill "A" 100 "2024-01-01" none none,
      Document.bill "B" 0 "2024-01-01" none none]).1
      "A" 100 "2024-01-01" none none (by decide) (by norm_num),
   (first_document_only_C10
      [Document.discharge_summary "p" "d" "2024-01-01" "2024-01-05" none none,
       Document.discharge_summary "p" "d" "2024-01-05" "2024-01-01"
         none none]).2.1
      "p" "d" "2024-01-01" "2024-01-05" none none (by decide)
      (fun a d ha hd => by
        rw [(by decide : parseDate "2024-01-01" = some (2024, 1, 1))] at ha
        rw [(by decide : parseDate "2024-01-05" = some (2024, 1, 5))] at hd
        cases ha
        cases hd
        decide),
   ((first_document_only_C10 [Document.id_card "p" "POL1" "MEM1" none,
      Document.id_card "p" "UNKNOWN" "UNKNOWN" none]).2.2.1
      "p" "POL1" "MEM1" none (by decide) (by decide) (by decide)
      (by decide) (by decide)).1,
   ((first_document_only_C10
      [Document.discharge_summary "Alice" "d" "2024-01-01" "2024-01-02"
         none none,
       Document.id_card "Bob" "POL1" "MEM1" none]).2.2.2
      (by decide)).mpr (by decide)⟩

end Superclaims
